import Mathlib

/-!
Verification development for the economic-indicator ETL pipeline and its
dashboard (PySpark transform in transform/main.py, lookup tables in
transform/redenominations.py and transform/country_codes.py, query-time
rebasing in dashboard/app.py). Values carried as exact rationals; DataFrames
and pandas frames as lists of records.
-/

/-- Rounding to `n` decimal places, modelling the Python builtin
`round(x, n)` on exact values (ties idealised as half-up; Python uses
half-even on binary floats, which differs only at exact decimal midpoints
and is irrelevant to every statement below). -/
def pyRound (n : ℕ) (q : ℚ) : ℚ := (round (q * 10 ^ n) : ℚ) / 10 ^ n

theorem pyRound_mono (n : ℕ) {x y : ℚ} (h : x ≤ y) : pyRound n x ≤ pyRound n y := by
  have hr : round (x * 10 ^ n) ≤ round (y * 10 ^ n) := by
    rw [round_eq, round_eq]
    exact Int.floor_le_floor (by gcongr)
  have hr' : ((round (x * 10 ^ n) : ℤ) : ℚ) ≤ ((round (y * 10 ^ n) : ℤ) : ℚ) := by
    exact_mod_cast hr
  unfold pyRound
  gcongr

theorem pyRound_idem (n : ℕ) (q : ℚ) : pyRound n (pyRound n q) = pyRound n q := by
  unfold pyRound
  have h10 : (10:ℚ) ^ n ≠ 0 := by positivity
  rw [div_mul_cancel₀ _ h10, round_intCast]

/-- Keys in order of first occurrence, as the distinct key set of a
Spark or pandas groupBy (the order is irrelevant to every claim). -/
def distinctKeys {α : Type} [DecidableEq α] : List α → List α
  | [] => []
  | a :: t => a :: (distinctKeys t).filter (fun x => x ≠ a)

theorem mem_distinctKeys {α : Type} [DecidableEq α] {l : List α} {x : α} :
    x ∈ distinctKeys l ↔ x ∈ l := by
  induction l with
  | nil => simp [distinctKeys]
  | cons a t ih =>
    by_cases hx : x = a
    · simp [distinctKeys, hx]
    · simp [distinctKeys, hx, List.mem_filter, ih]

theorem distinctKeys_nodup {α : Type} [DecidableEq α] (l : List α) :
    (distinctKeys l).Nodup := by
  induction l with
  | nil => simp [distinctKeys]
  | cons a t ih =>
    refine List.Nodup.cons ?_ (ih.filter _)
    intro hmem
    have := List.of_mem_filter hmem
    simp at this

/-!
Currency redenomination reference, from transform/redenominations.py.
Each entry: ISO3 code to the list of (switch_year, factor) pairs, factor
being how many old units make one new unit. Factors are Python integers,
modelled as Int.
-/

/-- The REDENOMINATIONS dict literal, including the three entries whose
lists are empty (MWI, UZB, MMR). -/
def REDENOMINATIONS_all : List (String × List (Int × Int)) := [
  ("ARG", [(1970, 100), (1983, 10000), (1985, 1000), (1992, 10000)]),
  ("BOL", [(1987, 1000000)]),
  ("BRA", [(1967, 1000), (1986, 1000), (1989, 1000), (1993, 1000), (1994, 2750)]),
  ("CHL", [(1975, 1000)]),
  ("MEX", [(1993, 1000)]),
  ("PER", [(1985, 1000), (1991, 1000000)]),
  ("URY", [(1975, 1000), (1993, 1000)]),
  ("VEN", [(2008, 1000), (2018, 100000)]),
  ("POL", [(1995, 10000)]),
  ("ROU", [(2005, 10000)]),
  ("RUS", [(1998, 1000)]),
  ("TUR", [(2005, 1000000)]),
  ("UKR", [(1996, 100000)]),
  ("BLR", [(2000, 1000), (2016, 10000)]),
  ("BGR", [(1999, 1000)]),
  ("ISL", [(1981, 100)]),
  ("AGO", [(1995, 1000), (1999, 1000000)]),
  ("COD", [(1993, 3000000), (1998, 100000)]),
  ("GHA", [(2007, 10000)]),
  ("MOZ", [(2006, 1000)]),
  ("SDN", [(2007, 100)]),
  ("ZMB", [(2013, 1000)]),
  ("ZWE", [(2006, 1000), (2008, 10000000000), (2009, 1000000000000)]),
  ("MWI", []),
  ("STP", [(2018, 1000)]),
  ("MRT", [(2018, 10)]),
  ("AZE", [(2006, 5000)]),
  ("GEO", [(1995, 1000000)]),
  ("ISR", [(1980, 10), (1986, 1000)]),
  ("TJK", [(2000, 1000)]),
  ("TKM", [(2009, 5000)]),
  ("UZB", []),
  ("AFG", [(2002, 1000)]),
  ("VNM", [(1985, 10)]),
  ("MMR", []),
  ("SUR", [(2004, 1000)])
]

/-- REDENOMINATIONS after the final comprehension removing empty entries. -/
def REDENOMINATIONS : List (String × List (Int × Int)) :=
  REDENOMINATIONS_all.filter (fun p => ¬ p.2.isEmpty)

/-- The corrected_value UDF of normalize_redenomination_values
(transform/main.py lines 375-385): a no-op for every indicator other than
monthly_wage and for countries absent from the table (Python early return
before any rounding); otherwise one division per entry with
year < switch_year, then round(value, 4). -/
def corrected_value (country_code : String) (year : Int) (value : ℚ)
    (indicator_type : String) : ℚ :=
  if indicator_type ≠ "monthly_wage" then value
  else
    match REDENOMINATIONS.lookup country_code with
    | none => value
    | some denoms =>
      if denoms.isEmpty then value
      else pyRound 4 (denoms.foldl
          (fun v e => if year < e.1 then v / (e.2 : ℚ) else v) value)

/-- The correction exactly as claim C1 words it: for a monthly_wage
observation, divide by the factor of every entry of the country whose
switch year strictly exceeds the observation year, and round the result to
4 decimal places (the claim applies the rounding to every wage
observation, entries or not). -/
def claimedRedenomCorrection (country_code : String) (year : Int) (value : ℚ)
    (indicator_type : String) : ℚ :=
  if indicator_type ≠ "monthly_wage" then value
  else pyRound 4 (value /
    ((((REDENOMINATIONS.lookup country_code).getD []).filter
        (fun e => year < e.1)).map (fun e => (e.2 : ℚ))).prod)

theorem foldl_div_eq_div_prod (year : Int) (ds : List (Int × Int)) (v : ℚ) :
    ds.foldl (fun w e => if year < e.1 then w / (e.2 : ℚ) else w) v
      = v / ((ds.filter (fun e => year < e.1)).map (fun e => (e.2 : ℚ))).prod := by
  induction ds generalizing v with
  | nil => simp
  | cons e t ih =>
    by_cases hy : year < e.1
    · simp [List.filter_cons, hy, ih, div_div]
    · simp [List.filter_cons, hy, ih]

/-- Product of the factors of the entries whose switch year strictly
exceeds the observation year. -/
def qualifyingProd (ds : List (Int × Int)) (y : Int) : ℚ :=
  ((ds.filter (fun e => y < e.1)).map (fun e => (e.2 : ℚ))).prod

theorem corrected_value_wage_eq {c : String} {ds : List (Int × Int)}
    (hc : REDENOMINATIONS.lookup c = some ds) (hne : ds ≠ [])
    (y : Int) (v : ℚ) :
    corrected_value c y v "monthly_wage" = pyRound 4 (v / qualifyingProd ds y) := by
  unfold corrected_value qualifyingProd
  rw [if_neg (by simp), hc]
  simp [hne, foldl_div_eq_div_prod]

theorem mem_of_lookup_eq_some {β : Type} {l : List (String × β)} {k : String}
    {v : β} (h : l.lookup k = some v) : (k, v) ∈ l := by
  induction l with
  | nil => simp [List.lookup] at h
  | cons a t ih =>
    obtain ⟨k', v'⟩ := a
    rw [List.lookup_cons] at h
    by_cases hk : k = k'
    · subst hk
      simp at h
      subst h
      exact List.mem_cons_self _ _
    · have hb : (k == k') = false := by simp [hk]
      simp [hb] at h
      exact List.mem_cons_of_mem _ (ih h)

theorem redenom_factor_pos : ∀ p ∈ REDENOMINATIONS, ∀ e ∈ p.2, (0:Int) < e.2 := by
  decide

theorem redenom_entries_nonempty : ∀ p ∈ REDENOMINATIONS, p.2 ≠ [] := by
  decide

theorem qualifyingProd_pos {c : String} {ds : List (Int × Int)}
    (hc : REDENOMINATIONS.lookup c = some ds) (y : Int) :
    0 < qualifyingProd ds y := by
  have hmem := mem_of_lookup_eq_some hc
  have hpos := redenom_factor_pos _ hmem
  unfold qualifyingProd
  apply List.prod_pos
  intro x hx
  obtain ⟨e, he, rfl⟩ := List.mem_map.1 hx
  have := hpos e (List.mem_of_mem_filter he)
  exact_mod_cast this

/-- Claim C1 (amended): the redenomination correction is the identity
unless the indicator is monthly_wage; for a wage observation of a country
that has at least one redenomination entry it equals the value divided by
the product of the factors of all entries with switch_year strictly
greater than the year (compounding the successive divisions), rounded to 4
decimal places — exactly the claimed formula; for a wage observation of a
country with no entry the value is returned unchanged, without the
rounding the claim asserts. The second conjunct instances the compounding
for ARG: a 1965 observation is divided by 100 * 10000 * 1000 * 10000. -/
theorem c1_redenomination_correction (c : String) (y : Int) (v : ℚ) (t : String) :
    (corrected_value c y v t =
      if t = "monthly_wage" ∧ ((REDENOMINATIONS.lookup c).getD []) ≠ []
      then claimedRedenomCorrection c y v t
      else v) ∧
    (∀ w : ℚ, corrected_value "ARG" 1965 w "monthly_wage"
      = pyRound 4 (w / (100 * 10000 * 1000 * 10000 : ℚ))) := by
  constructor
  · by_cases ht : t = "monthly_wage"
    · subst ht
      cases hc : REDENOMINATIONS.lookup c with
      | none =>
        simp [corrected_value, claimedRedenomCorrection, hc]
      | some ds =>
        by_cases hne : ds = []
        · subst hne
          simp [corrected_value, claimedRedenomCorrection, hc]
        · rw [corrected_value_wage_eq hc hne]
          simp only [hc, Option.getD_some, hne, ne_eq, not_false_iff, and_true,
            if_pos, claimedRedenomCorrection]
          simp [qualifyingProd]
    · simp [corrected_value, claimedRedenomCorrection, ht]
  · intro w
    have hARG : REDENOMINATIONS.lookup "ARG"
        = some [(1970, 100), (1983, 10000), (1985, 1000), (1992, 10000)] := by
      decide
    rw [corrected_value_wage_eq hARG (by simp) 1965]
    norm_num [qualifyingProd, List.filter_cons]

/-- Claim C1 counterexample: the United States has no redenomination
entry, so the code returns a wage value unchanged, while the claimed
formula rounds every wage value to 4 decimal places; at value 1/100000 the
two differ (the claimed correction gives 0). -/
theorem c1_counterexample :
    corrected_value "USA" 2000 (1/100000) "monthly_wage" = 1/100000 ∧
    claimedRedenomCorrection "USA" 2000 (1/100000) "monthly_wage" = 0 ∧
    (1/100000 : ℚ) ≠ 0 := by
  have hl : REDENOMINATIONS.lookup "USA" = none := by decide
  refine ⟨?_, ?_, by norm_num⟩
  · simp [corrected_value, hl]
  · simp only [claimedRedenomCorrection, hl, Option.getD_none, List.filter_nil,
      List.map_nil, List.prod_nil, ne_eq]
    norm_num [pyRound, round_eq]

/-- Claim C9 (amended): for every country with redenomination entries the
correction is monotone in the value argument; for every year at or after
the latest switch year it performs no division and reduces to rounding the
value to 4 decimal places (a no-op only on values already expressed with
at most 4 decimals, not on arbitrary values as the claim words it), hence
re-applying it to an already-corrected value changes nothing. -/
theorem c9_monotone_idempotent (c : String) (ds : List (Int × Int))
    (hc : REDENOMINATIONS.lookup c = some ds) (y : Int) :
    (∀ (t : String) (v1 v2 : ℚ), v1 ≤ v2 →
        corrected_value c y v1 t ≤ corrected_value c y v2 t) ∧
    ((∀ e ∈ ds, e.1 ≤ y) → ∀ v : ℚ,
        corrected_value c y v "monthly_wage" = pyRound 4 v ∧
        corrected_value c y (corrected_value c y v "monthly_wage") "monthly_wage"
          = corrected_value c y v "monthly_wage") := by
  have hne : ds ≠ [] := redenom_entries_nonempty _ (mem_of_lookup_eq_some hc)
  constructor
  · intro t v1 v2 h12
    by_cases ht : t = "monthly_wage"
    · subst ht
      rw [corrected_value_wage_eq hc hne, corrected_value_wage_eq hc hne]
      exact pyRound_mono 4 (by
        have hP := qualifyingProd_pos hc y
        gcongr)
    · simpa [corrected_value, ht] using h12
  · intro hlate v
    have hfil : ds.filter (fun e => y < e.1) = [] := by
      rw [List.filter_eq_nil_iff]
      intro e he
      simpa using not_lt.2 (hlate e he)
    have h1 : corrected_value c y v "monthly_wage" = pyRound 4 v := by
      rw [corrected_value_wage_eq hc hne, qualifyingProd, hfil]
      simp
    refine ⟨h1, ?_⟩
    rw [h1, corrected_value_wage_eq hc hne, qualifyingProd, hfil]
    simp [pyRound_idem]

/-- Claim C9 counterexample: Russia has its latest (and only) switch in
1998, yet for the year 2000 the correction is not a no-op: it still rounds
to 4 decimal places, so the value 1/100000 is changed (to 0). -/
theorem c9_counterexample :
    REDENOMINATIONS.lookup "RUS" = some [(1998, 1000)] ∧
    ((1998:Int) ≤ 2000) ∧
    corrected_value "RUS" 2000 (1/100000) "monthly_wage" ≠ 1/100000 := by
  refine ⟨by decide, by decide, ?_⟩
  have hRUS : REDENOMINATIONS.lookup "RUS" = some [(1998, 1000)] := by decide
  rw [corrected_value_wage_eq hRUS (by simp) 2000]
  norm_num [qualifyingProd, List.filter_cons, pyRound, round_eq]

/-- Witness for claim C9 at the Russian rouble, year 2000: monotonicity at
the values 1 and 2, and the no-division plus idempotence facts at the
value 5. -/
theorem c9_witness :
    corrected_value "RUS" 2000 1 "monthly_wage"
      ≤ corrected_value "RUS" 2000 2 "monthly_wage" ∧
    corrected_value "RUS" 2000 5 "monthly_wage" = pyRound 4 5 ∧
    corrected_value "RUS" 2000 (corrected_value "RUS" 2000 5 "monthly_wage")
        "monthly_wage"
      = corrected_value "RUS" 2000 5 "monthly_wage" := by
  refine ⟨(c9_monotone_idempotent "RUS" [(1998, 1000)] (by decide) 2000).1
    "monthly_wage" 1 2 (by norm_num), ?_, ?_⟩
  · exact ((c9_monotone_idempotent "RUS" [(1998, 1000)] (by decide) 2000).2
      (by decide) 5).1
  · exact ((c9_monotone_idempotent "RUS" [(1998, 1000)] (by decide) 2000).2
      (by decide) 5).2

/-!
Exchange rates and the USD converter, from transform/main.py lines
336-429. Raw FX records keep their optional rate (the raw record lists fed
to compute_value_usd are not filtered for missing rates).
-/

structure FXRaw where
  country_code : String
  year : Int
  exchange_rate : Option ℚ
deriving DecidableEq

/-- Fixed EUR conversion constants (1 EUR = X units of the old currency),
EUROZONE_RATES of transform/main.py, as (adoption_year, conversion). -/
def EUROZONE_RATES : List (String × (Int × ℚ)) := [
  ("AUT", (1999, 137603/10000)),
  ("BEL", (1999, 403399/10000)),
  ("DEU", (1999, 195583/100000)),
  ("ESP", (1999, 166386/1000)),
  ("FIN", (1999, 594573/100000)),
  ("FRA", (1999, 655957/100000)),
  ("IRL", (1999, 787564/1000000)),
  ("ITA", (1999, 193627/100)),
  ("LUX", (1999, 403399/10000)),
  ("NLD", (1999, 220371/100000)),
  ("PRT", (1999, 200482/1000)),
  ("GRC", (2001, 340750/1000)),
  ("SVN", (2007, 239640/1000)),
  ("CYP", (2008, 585274/1000000)),
  ("MLT", (2008, 429300/1000000)),
  ("SVK", (2009, 301260/10000)),
  ("EST", (2011, 156466/10000)),
  ("LVA", (2014, 702804/1000000)),
  ("LTU", (2015, 345280/100000)),
  ("HRV", (2023, 753450/100000))
]

/-- normalize_fx_eurozone: before the adoption year the old-currency rate
is divided by the fixed conversion constant. A record with a missing rate
passes through unchanged on the non-eurozone path; on the pre-adoption
eurozone path Python would raise on None, a case no claim exercises, and
the model maps it through as missing. -/
def normalize_fx_eurozone (fx_records : List FXRaw) : List FXRaw :=
  fx_records.map fun r =>
    match EUROZONE_RATES.lookup r.country_code with
    | none => r
    | some p =>
      if r.year < p.1 then
        { r with exchange_rate := r.exchange_rate.map (fun x => x / p.2) }
      else r

/-- The broadcast dict of compute_value_usd,
fx_dict = {(country_code, year): exchange_rate}: an exact-key map in which
a later record for the same key overwrites an earlier one. -/
def fx_dict_lookup (fx_raw : List FXRaw) (key : String × Int) : Option (Option ℚ) :=
  ((fx_raw.filter (fun r => r.country_code = key.1 ∧ r.year = key.2)).getLast?).map
    (fun r => r.exchange_rate)

/-- The usd_value UDF (transform/main.py lines 422-427): look up the exact
(country_code, year) key; if the stored rate is truthy (present and
non-zero) return round(value / fx, 4), else None. -/
def usd_value (fx_raw : List FXRaw) (country_code : String) (year : Int)
    (value : ℚ) : Option ℚ :=
  match fx_dict_lookup fx_raw (country_code, year) with
  | some (some fx) => if fx ≠ 0 then some (pyRound 4 (value / fx)) else none
  | some none => none
  | none => none

/-- Claim C7 (amended): value_usd is computed from the exact-key lookup of
fx_dict alone: it is null exactly when the key is absent or the stored
rate is missing or zero, and otherwise equals round(value / rate, 4) for
the stored rate (no interpolation and no nearest-year search). -/
theorem c7_usd_exact_key (fx : List FXRaw) (cc : String) (y : Int) (v : ℚ) :
    (usd_value fx cc y v = none ↔
      ((fx_dict_lookup fx (cc, y)).bind id = none ∨
        (fx_dict_lookup fx (cc, y)).bind id = some 0)) ∧
    (∀ r : ℚ, (fx_dict_lookup fx (cc, y)).bind id = some r → r ≠ 0 →
      usd_value fx cc y v = some (pyRound 4 (v / r))) := by
  constructor
  · unfold usd_value
    cases h : fx_dict_lookup fx (cc, y) with
    | none => simp
    | some o =>
      cases o with
      | none => simp
      | some r =>
        by_cases hr : r = 0
        · subst hr
          simp
        · simp [hr]
  · intro r hr hr0
    unfold usd_value
    cases h : fx_dict_lookup fx (cc, y) with
    | none => simp [h] at hr
    | some o =>
      cases o with
      | none => simp [h] at hr
      | some r' =>
        rw [h] at hr
        simp at hr
        subst hr
        simp [hr0]

/-- Claim C7 counterexample: an exchange rate of zero is stored for the
exact key (ARG, 2000), yet value_usd is null — so "null if and only if no
exchange rate exists for that exact key" fails in the only-if direction. -/
theorem c7_counterexample :
    fx_dict_lookup [⟨"ARG", 2000, some 0⟩] ("ARG", 2000) = some (some 0) ∧
    usd_value [⟨"ARG", 2000, some 0⟩] "ARG" 2000 5 = none := by
  constructor
  · decide
  · decide

/-- Witness for claim C7 at a one-record rate table: the stored rate 4 is
non-zero, and the USD value of 8 is round(8 / 4, 4). -/
theorem c7_witness :
    usd_value [⟨"USA", 2000, some 4⟩] "USA" 2000 8 = some (pyRound 4 (8 / 4)) :=
  (c7_usd_exact_key [⟨"USA", 2000, some 4⟩] "USA" 2000 8).2 4
    (by decide) (by norm_num)

/-- Claim C10: a stored exchange rate equal to zero never reaches the
division: value_usd is null, exactly as when no rate exists for the key at
all. -/
theorem c10_zero_rate_null (fx fx' : List FXRaw) (cc : String) (y : Int) (v : ℚ)
    (h : (fx_dict_lookup fx (cc, y)).bind id = some 0)
    (h' : fx_dict_lookup fx' (cc, y) = none) :
    usd_value fx cc y v = none ∧ usd_value fx cc y v = usd_value fx' cc y v := by
  have h1 : usd_value fx cc y v = none := by
    unfold usd_value
    cases hl : fx_dict_lookup fx (cc, y) with
    | none => rfl
    | some o =>
      cases o with
      | none => rfl
      | some r =>
        rw [hl] at h
        simp at h
        simp [h]
  have h2 : usd_value fx' cc y v = none := by
    unfold usd_value
    rw [h']
  exact ⟨h1, h1.trans h2.symm⟩

/-- Witness for claim C10: a zero rate stored for (PER, 1990) yields a
null USD value, identical to the empty rate table. -/
theorem c10_witness :
    usd_value [⟨"PER", 1990, some 0⟩] "PER" 1990 3 = none ∧
    usd_value [⟨"PER", 1990, some 0⟩] "PER" 1990 3
      = usd_value ([] : List FXRaw) "PER" 1990 3 :=
  c10_zero_rate_null [⟨"PER", 1990, some 0⟩] [] "PER" 1990 3
    (by decide) (by decide)

/-!
Unified schema (UNIFIED_SCHEMA of transform/main.py) and the country-code
registry of transform/country_codes.py. The ingested_at timestamp column
is omitted: it is a single constant per pipeline run (datetime.utcnow()
taken once per normalizer), so it never distinguishes two rows of one run
and no claim mentions it.
-/

structure UnifiedRecord where
  country_code : String
  country_name : String
  year : Int
  value : ℚ
  value_rebased : Option ℚ
  value_usd : Option ℚ
  indicator_type : String
  source : String
deriving DecidableEq
def M49_TO_ISO3 : List (String × String) := [
  ("4", "AFG"), ("8", "ALB"), ("12", "DZA"),
  ("16", "ASM"), ("20", "AND"), ("24", "AGO"),
  ("28", "ATG"), ("32", "ARG"), ("51", "ARM"),
  ("36", "AUS"), ("40", "AUT"), ("31", "AZE"),
  ("44", "BHS"), ("48", "BHR"), ("50", "BGD"),
  ("52", "BRB"), ("112", "BLR"), ("56", "BEL"),
  ("84", "BLZ"), ("204", "BEN"), ("64", "BTN"),
  ("68", "BOL"), ("70", "BIH"), ("72", "BWA"),
  ("76", "BRA"), ("96", "BRN"), ("100", "BGR"),
  ("854", "BFA"), ("108", "BDI"), ("116", "KHM"),
  ("120", "CMR"), ("124", "CAN"), ("132", "CPV"),
  ("140", "CAF"), ("148", "TCD"), ("152", "CHL"),
  ("156", "CHN"), ("170", "COL"), ("174", "COM"),
  ("178", "COG"), ("180", "COD"), ("188", "CRI"),
  ("384", "CIV"), ("191", "HRV"), ("192", "CUB"),
  ("196", "CYP"), ("203", "CZE"), ("208", "DNK"),
  ("262", "DJI"), ("212", "DMA"), ("214", "DOM"),
  ("218", "ECU"), ("818", "EGY"), ("222", "SLV"),
  ("226", "GNQ"), ("232", "ERI"), ("233", "EST"),
  ("231", "ETH"), ("242", "FJI"), ("246", "FIN"),
  ("250", "FRA"), ("266", "GAB"), ("270", "GMB"),
  ("268", "GEO"), ("276", "DEU"), ("288", "GHA"),
  ("300", "GRC"), ("308", "GRD"), ("320", "GTM"),
  ("324", "GIN"), ("624", "GNB"), ("328", "GUY"),
  ("332", "HTI"), ("340", "HND"), ("344", "HKG"),
  ("348", "HUN"), ("352", "ISL"), ("356", "IND"),
  ("360", "IDN"), ("364", "IRN"), ("368", "IRQ"),
  ("372", "IRL"), ("376", "ISR"), ("380", "ITA"),
  ("388", "JAM"), ("392", "JPN"), ("400", "JOR"),
  ("398", "KAZ"), ("404", "KEN"), ("296", "KIR"),
  ("408", "PRK"), ("410", "KOR"), ("414", "KWT"),
  ("417", "KGZ"), ("418", "LAO"), ("428", "LVA"),
  ("422", "LBN"), ("426", "LSO"), ("430", "LBR"),
  ("434", "LBY"), ("438", "LIE"), ("440", "LTU"),
  ("442", "LUX"), ("446", "MAC"), ("807", "MKD"),
  ("450", "MDG"), ("454", "MWI"), ("458", "MYS"),
  ("462", "MDV"), ("466", "MLI"), ("470", "MLT"),
  ("584", "MHL"), ("478", "MRT"), ("480", "MUS"),
  ("484", "MEX"), ("583", "FSM"), ("498", "MDA"),
  ("492", "MCO"), ("496", "MNG"), ("499", "MNE"),
  ("504", "MAR"), ("508", "MOZ"), ("104", "MMR"),
  ("516", "NAM"), ("520", "NRU"), ("524", "NPL"),
  ("528", "NLD"), ("554", "NZL"), ("558", "NIC"),
  ("562", "NER"), ("566", "NGA"), ("578", "NOR"),
  ("512", "OMN"), ("586", "PAK"), ("585", "PLW"),
  ("591", "PAN"), ("598", "PNG"), ("600", "PRY"),
  ("604", "PER"), ("608", "PHL"), ("616", "POL"),
  ("620", "PRT"), ("634", "QAT"), ("642", "ROU"),
  ("643", "RUS"), ("646", "RWA"), ("659", "KNA"),
  ("662", "LCA"), ("670", "VCT"), ("882", "WSM"),
  ("674", "SMR"), ("678", "STP"), ("682", "SAU"),
  ("686", "SEN"), ("688", "SRB"), ("690", "SYC"),
  ("694", "SLE"), ("702", "SGP"), ("703", "SVK"),
  ("705", "SVN"), ("90", "SLB"), ("706", "SOM"),
  ("710", "ZAF"), ("724", "ESP"), ("144", "LKA"),
  ("736", "SDN"), ("740", "SUR"), ("748", "SWZ"),
  ("752", "SWE"), ("756", "CHE"), ("760", "SYR"),
  ("158", "TWN"), ("762", "TJK"), ("834", "TZA"),
  ("764", "THA"), ("626", "TLS"), ("768", "TGO"),
  ("776", "TON"), ("780", "TTO"), ("788", "TUN"),
  ("792", "TUR"), ("795", "TKM"), ("798", "TUV"),
  ("800", "UGA"), ("804", "UKR"), ("784", "ARE"),
  ("826", "GBR"), ("840", "USA"), ("858", "URY"),
  ("860", "UZB"), ("548", "VUT"), ("862", "VEN"),
  ("704", "VNM"), ("887", "YEM"), ("894", "ZMB"),
  ("716", "ZWE"), ("275", "PSE"), ("531", "CUW"),
  ("534", "SXM"), ("535", "BES"), ("630", "PRI"),
  ("316", "GUM"), ("580", "MNP"), ("850", "VIR"),
  ("796", "TCA"), ("136", "CYM"), ("060", "BMU"),
  ("092", "VGB")
]

def M49_TO_NAME : List (String × String) := [
  ("4", "Afghanistan"), ("8", "Albania"), ("12", "Algeria"),
  ("32", "Argentina"), ("36", "Australia"), ("40", "Austria"),
  ("31", "Azerbaijan"), ("48", "Bahrain"), ("50", "Bangladesh"),
  ("56", "Belgium"), ("68", "Bolivia"), ("76", "Brazil"),
  ("100", "Bulgaria"), ("116", "Cambodia"), ("120", "Cameroon"),
  ("124", "Canada"), ("152", "Chile"), ("156", "China"),
  ("170", "Colombia"), ("188", "Costa Rica"), ("191", "Croatia"),
  ("196", "Cyprus"), ("203", "Czech Republic"), ("208", "Denmark"),
  ("214", "Dominican Republic"), ("218", "Ecuador"), ("818", "Egypt"),
  ("233", "Estonia"), ("231", "Ethiopia"), ("246", "Finland"),
  ("250", "France"), ("268", "Georgia"), ("276", "Germany"),
  ("288", "Ghana"), ("300", "Greece"), ("320", "Guatemala"),
  ("332", "Haiti"), ("340", "Honduras"), ("344", "Hong Kong"),
  ("348", "Hungary"), ("352", "Iceland"), ("356", "India"),
  ("360", "Indonesia"), ("364", "Iran"), ("368", "Iraq"),
  ("372", "Ireland"), ("376", "Israel"), ("380", "Italy"),
  ("388", "Jamaica"), ("392", "Japan"), ("400", "Jordan"),
  ("398", "Kazakhstan"), ("404", "Kenya"), ("410", "South Korea"),
  ("414", "Kuwait"), ("417", "Kyrgyzstan"), ("428", "Latvia"),
  ("422", "Lebanon"), ("440", "Lithuania"), ("442", "Luxembourg"),
  ("446", "Macao"), ("458", "Malaysia"), ("484", "Mexico"),
  ("496", "Mongolia"), ("499", "Montenegro"), ("504", "Morocco"),
  ("508", "Mozambique"), ("104", "Myanmar"), ("524", "Nepal"),
  ("528", "Netherlands"), ("554", "New Zealand"), ("558", "Nicaragua"),
  ("566", "Nigeria"), ("578", "Norway"), ("512", "Oman"),
  ("586", "Pakistan"), ("591", "Panama"), ("600", "Paraguay"),
  ("604", "Peru"), ("608", "Philippines"), ("616", "Poland"),
  ("620", "Portugal"), ("634", "Qatar"), ("642", "Romania"),
  ("643", "Russia"), ("682", "Saudi Arabia"), ("686", "Senegal"),
  ("688", "Serbia"), ("702", "Singapore"), ("703", "Slovakia"),
  ("705", "Slovenia"), ("710", "South Africa"), ("724", "Spain"),
  ("144", "Sri Lanka"), ("736", "Sudan"), ("752", "Sweden"),
  ("756", "Switzerland"), ("764", "Thailand"), ("780", "Trinidad and Tobago"),
  ("788", "Tunisia"), ("792", "Turkey"), ("804", "Ukraine"),
  ("784", "United Arab Emirates"), ("826", "United Kingdom"), ("840", "United States"),
  ("858", "Uruguay"), ("860", "Uzbekistan"), ("862", "Venezuela"),
  ("704", "Vietnam")
]

def ISO3_TO_NAME_additions : List (String × String) := [
  ("AND", "Andorra"), ("ANT", "Netherlands Antilles"), ("COK", "Cook Islands"),
  ("CUB", "Cuba"), ("FLK", "Falkland Islands"), ("GGY", "Guernsey"),
  ("GIB", "Gibraltar"), ("IMN", "Isle of Man"), ("JEY", "Jersey"),
  ("KOS", "Kosovo"), ("LIE", "Liechtenstein"), ("MHL", "Marshall Islands"),
  ("REU", "Réunion"), ("SHN", "Saint Helena"), ("TKL", "Tokelau"),
  ("TKM", "Turkmenistan"), ("WLF", "Wallis and Futuna"), ("ASM", "American Samoa"),
  ("ATG", "Antigua and Barbuda"), ("BHS", "Bahamas"), ("BRB", "Barbados"),
  ("BLZ", "Belize"), ("BEN", "Benin"), ("BTN", "Bhutan"),
  ("BIH", "Bosnia and Herzegovina"), ("BWA", "Botswana"), ("BRN", "Brunei"),
  ("BFA", "Burkina Faso"), ("BDI", "Burundi"), ("CPV", "Cape Verde"),
  ("TCD", "Chad"), ("COM", "Comoros"), ("COG", "Congo"),
  ("COD", "DR Congo"), ("CRI", "Costa Rica"), ("CIV", "Côte d\x27Ivoire"),
  ("DJI", "Djibouti"), ("DMA", "Dominica"), ("SLV", "El Salvador"),
  ("GNQ", "Equatorial Guinea"), ("ERI", "Eritrea"), ("FJI", "Fiji"),
  ("GAB", "Gabon"), ("GMB", "Gambia"), ("GRD", "Grenada"),
  ("GIN", "Guinea"), ("GNB", "Guinea-Bissau"), ("GUY", "Guyana"),
  ("KIR", "Kiribati"), ("PRK", "North Korea"), ("LAO", "Laos"),
  ("LSO", "Lesotho"), ("LBR", "Liberia"), ("LBY", "Libya"),
  ("MAC", "Macao"), ("MKD", "North Macedonia"), ("MDG", "Madagascar"),
  ("MWI", "Malawi"), ("MDV", "Maldives"), ("MLI", "Mali"),
  ("MLT", "Malta"), ("MRT", "Mauritania"), ("MUS", "Mauritius"),
  ("FSM", "Micronesia"), ("MDA", "Moldova"), ("MCO", "Monaco"),
  ("NAM", "Namibia"), ("NRU", "Nauru"), ("NER", "Niger"),
  ("PLW", "Palau"), ("PNG", "Papua New Guinea"), ("PRY", "Paraguay"),
  ("RWA", "Rwanda"), ("KNA", "Saint Kitts and Nevis"), ("LCA", "Saint Lucia"),
  ("VCT", "Saint Vincent"), ("WSM", "Samoa"), ("SMR", "San Marino"),
  ("STP", "São Tomé and Príncipe"), ("SYC", "Seychelles"), ("SLE", "Sierra Leone"),
  ("SLB", "Solomon Islands"), ("SOM", "Somalia"), ("SUR", "Suriname"),
  ("SWZ", "Eswatini"), ("SYR", "Syria"), ("TWN", "Taiwan"),
  ("TZA", "Tanzania"), ("TLS", "Timor-Leste"), ("TGO", "Togo"),
  ("TON", "Tonga"), ("TTO", "Trinidad and Tobago"), ("TUV", "Tuvalu"),
  ("UGA", "Uganda"), ("VUT", "Vanuatu"), ("YEM", "Yemen"),
  ("PSE", "Palestine"), ("CUW", "Curaçao"), ("SXM", "Sint Maarten"),
  ("BES", "Bonaire"), ("PRI", "Puerto Rico"), ("GUM", "Guam"),
  ("MNP", "Northern Mariana Islands"), ("VIR", "US Virgin Islands"), ("TCA", "Turks and Caicos"),
  ("CYM", "Cayman Islands"), ("BMU", "Bermuda"), ("VGB", "British Virgin Islands")
]

/-- ISO3_TO_NAME before the update call: the comprehension
{iso3: M49_TO_NAME[m49] for m49, iso3 in M49_TO_ISO3.items() if m49 in M49_TO_NAME}. -/
def ISO3_TO_NAME_base : List (String × String) :=
  M49_TO_ISO3.filterMap (fun p => (M49_TO_NAME.lookup p.1).map (fun n => (p.2, n)))

/-- Lookup in ISO3_TO_NAME after the .update(...) call: the manual
additions override the comprehension entries. -/
def ISO3_TO_NAME_lookup (c : String) : Option String :=
  (ISO3_TO_NAME_additions.lookup c).or (ISO3_TO_NAME_base.lookup c)

/-- The fill_name UDF of transform/main.py lines 554-558: keep a truthy
source-provided name, else fall back to the registry (default empty). -/
def fill_name (country_code country_name : String) : String :=
  if country_name ≠ "" then country_name
  else (ISO3_TO_NAME_lookup country_code).getD ""

/-- Strip characters satisfying p from both ends, as Python str.strip. -/
def stripChars (p : Char → Bool) (s : String) : String :=
  ⟨((s.data.dropWhile p).reverse.dropWhile p).reverse⟩

/-- str(x).strip(): strip surrounding whitespace. -/
def pyStrip (s : String) : String := stripChars Char.isWhitespace s

/-- .strip of the two quote characters, as in normalize_faostat. -/
def stripQuotes (s : String) : String :=
  stripChars (fun ch => ch = Char.ofNat 34 ∨ ch = Char.ofNat 39) s

/-!
Per-source normalizers (transform/main.py lines 166-329). Raw records are
the scraper dicts; a field read with r.get(key) that may be absent or None
is an Option, and the country_code read via a truthiness test is a String
whose empty value models an absent or falsy code.
-/

structure WBRaw where
  country_code : String
  country_name : Option String
  year : Int
  cpi_total : Option ℚ
deriving DecidableEq

structure FAORaw where
  country_code : String
  country_name : Option String
  year : Int
  cpi_food : Option ℚ
deriving DecidableEq

structure ILORaw where
  country_code : String
  country_name : Option String
  year : Int
  gross_wage : Option ℚ
deriving DecidableEq

structure BISRaw where
  country_code : String
  country_name : Option String
  year : Int
  housing_price_index : Option ℚ
deriving DecidableEq

/-- The Spark groupBy key used by normalize_faostat and normalize_ilostat:
(country_code, country_name, year, indicator_type, source); the constant
ingested_at column of the key is omitted. -/
def groupKey (r : UnifiedRecord) : String × String × Int × String × String :=
  (r.country_code, r.country_name, r.year, r.indicator_type, r.source)

/-- groupBy(key).agg(avg(value)) followed by the re-select that resets
value_rebased and value_usd to null: one row per distinct key, carrying
the arithmetic mean of the value column of its group. -/
def groupAvg (rows : List UnifiedRecord) : List UnifiedRecord :=
  (distinctKeys (rows.map groupKey)).map (fun k =>
    let g := rows.filter (fun r => groupKey r = k)
    { country_code := k.1, country_name := k.2.1, year := k.2.2.1,
      value := (g.map (fun r => r.value)).sum / (g.length : ℚ),
      value_rebased := none, value_usd := none,
      indicator_type := k.2.2.2.1, source := k.2.2.2.2 })

def normalize_worldbank (raw : List WBRaw) : List UnifiedRecord :=
  raw.filterMap fun r =>
    match r.cpi_total with
    | none => none
    | some v =>
      if r.country_code = "" then none
      else some { country_code := r.country_code,
                  country_name := r.country_name.getD "",
                  year := r.year, value := v, value_rebased := none,
                  value_usd := none, indicator_type := "cpi",
                  source := "worldbank" }

def normalize_faostat (raw : List FAORaw) : List UnifiedRecord :=
  groupAvg (raw.filterMap fun r =>
    match r.cpi_food with
    | none => none
    | some v =>
      let m49 := stripQuotes (pyStrip r.country_code)
      match M49_TO_ISO3.lookup m49 with
      | none => none
      | some iso3 =>
        if iso3 = "" then none
        else some { country_code := iso3,
                    country_name := r.country_name.getD
                      ((M49_TO_NAME.lookup m49).getD ""),
                    year := r.year, value := v, value_rebased := none,
                    value_usd := none, indicator_type := "food_cpi",
                    source := "faostat" })

def normalize_ilostat (raw : List ILORaw) : List UnifiedRecord :=
  groupAvg (raw.filterMap fun r =>
    match r.gross_wage with
    | none => none
    | some v =>
      if r.country_code = "" then none
      else some { country_code := r.country_code,
                  country_name := r.country_name.getD "",
                  year := r.year, value := v, value_rebased := none,
                  value_usd := none, indicator_type := "monthly_wage",
                  source := "ilostat" })

def normalize_bis (raw : List BISRaw) : List UnifiedRecord :=
  raw.filterMap fun r =>
    match r.housing_price_index with
    | none => none
    | some v =>
      if r.country_code = "" then none
      else some { country_code := r.country_code,
                  country_name := r.country_name.getD "",
                  year := r.year, value := v, value_rebased := none,
                  value_usd := none, indicator_type := "housing_price_index",
                  source := "bis" }

/-- withColumn("value", corrected_value(...)): per-row redenomination
correction (transform/main.py lines 387-390). -/
def normalize_redenomination_values (df : List UnifiedRecord) : List UnifiedRecord :=
  df.map fun r =>
    { r with value := corrected_value r.country_code r.year r.value r.indicator_type }

/-- withColumn("value_usd", usd_value(...)) over the broadcast fx dict
(transform/main.py lines 414-429). -/
def compute_value_usd (df : List UnifiedRecord) (fx_raw : List FXRaw) :
    List UnifiedRecord :=
  df.map fun r =>
    { r with value_usd := usd_value fx_raw r.country_code r.year r.value }

/-!
Step 6 of main(): drop sparse monthly_wage series (transform/main.py
lines 582-596).
-/

/-- Rows of the wage indicator for one country; its length is the
groupBy("country_code").count() entry of that country. -/
def wage_count (rows : List UnifiedRecord) (c : String) : ℕ :=
  ((rows.filter (fun r => r.indicator_type = "monthly_wage")).filter
      (fun r => r.country_code = c)).length

/-- sparse_codes: the countries whose monthly_wage group has fewer than 3
rows. -/
def sparse_codes (rows : List UnifiedRecord) : List String :=
  (distinctKeys ((rows.filter (fun r => r.indicator_type = "monthly_wage")).map
      (fun r => r.country_code))).filter (fun c => wage_count rows c < 3)

/-- unified.filter(~((indicator_type == monthly_wage) & isin(sparse_codes))). -/
def drop_sparse_wages (rows : List UnifiedRecord) : List UnifiedRecord :=
  rows.filter (fun r =>
    ¬ (r.indicator_type = "monthly_wage" ∧ r.country_code ∈ sparse_codes rows))

/-!
A left equi-join in which a left row is emitted once per matching right
row, or once with no match — the semantics of both the Spark
DataFrame.join(how="left") of rebase_to_2015 and the pandas
DataFrame.merge(how="left") of the dashboard.
-/

def leftMergeFlat {α β γ : Type} (bs : List β) (q : α → β → Bool)
    (f : α → Option β → γ) (l : List α) : List γ :=
  l.flatMap fun r =>
    let ms := bs.filter (q r)
    if ms.isEmpty then [f r none] else ms.map (fun b => f r (some b))

/-- rebase_to_2015 (transform/main.py lines 437-457): the base table is
the year-2016 slice projected to (country_code, indicator_type, value);
after the left join on (country_code, indicator_type), value_rebased is
round(value / base * 100, 2) when the base is present and non-zero, else
null. -/
def rebase_to_2015 (df : List UnifiedRecord) : List UnifiedRecord :=
  let base_2015 := (df.filter (fun r => r.year = 2016)).map
    (fun r => (r.country_code, r.indicator_type, r.value))
  leftMergeFlat base_2015
    (fun r b => b.1 = r.country_code ∧ b.2.1 = r.indicator_type)
    (fun r o =>
      { r with value_rebased :=
          match o with
          | none => none
          | some b => if b.2.2 ≠ 0 then some (pyRound 2 (r.value / b.2.2 * 100))
                      else none })
    df

/-- The full transformation pipeline of main() (transform/main.py lines
516-607), from the per-source raw record lists to the DataFrame written
to MongoDB: union of the four normalized sources, drop of non-3-letter
codes, name fill, redenomination correction, USD computation, sparse-wage
pruning, batch rebasing. -/
def etlPipeline (wb : List WBRaw) (fao : List FAORaw) (ilo : List ILORaw)
    (bis : List BISRaw) (fx : List FXRaw) : List UnifiedRecord :=
  let unified := ((normalize_worldbank wb ++ normalize_faostat fao)
      ++ normalize_ilostat ilo) ++ normalize_bis bis
  let unified := unified.filter (fun r => r.country_code.length = 3)
  let unified := unified.map (fun r =>
    { r with country_name := fill_name r.country_code r.country_name })
  let unified := normalize_redenomination_values unified
  let unified := compute_value_usd unified (normalize_fx_eurozone fx)
  let unified := drop_sparse_wages unified
  rebase_to_2015 unified

/-- Claim C8: a country whose monthly_wage row count is below 3 loses all
its monthly_wage rows; a country with at least 3 keeps every one of them;
rows of any other indicator are never removed by the pruning step. -/
theorem c8_sparse_wage_pruning (rows : List UnifiedRecord) (c : String) :
    (wage_count rows c < 3 →
      (drop_sparse_wages rows).all
        (fun r => decide (¬(r.country_code = c ∧
          r.indicator_type = "monthly_wage"))) = true) ∧
    (3 ≤ wage_count rows c →
      rows.all (fun r => decide
        ((r.country_code = c ∧ r.indicator_type = "monthly_wage")
          → r ∈ drop_sparse_wages rows)) = true) ∧
    rows.all (fun r => decide (r.indicator_type ≠ "monthly_wage"
        → r ∈ drop_sparse_wages rows)) = true := by
  refine ⟨?_, ?_, ?_⟩
  · intro hlt
    rw [List.all_eq_true]
    intro r hr
    rw [decide_eq_true_eq]
    rintro ⟨hcc, hit⟩
    have hmem := List.mem_filter.1 hr
    have hsp : c ∈ sparse_codes rows := by
      unfold sparse_codes
      rw [List.mem_filter]
      constructor
      · rw [mem_distinctKeys, List.mem_map]
        exact ⟨r, List.mem_filter.2 ⟨hmem.1, by simp [hit]⟩, hcc⟩
      · simpa using hlt
    have := hmem.2
    rw [decide_eq_true_eq] at this
    exact this ⟨hit, hcc ▸ hsp⟩
  · intro hge
    rw [List.all_eq_true]
    intro r hr
    rw [decide_eq_true_eq]
    rintro ⟨hcc, hit⟩
    unfold drop_sparse_wages
    rw [List.mem_filter]
    refine ⟨hr, ?_⟩
    rw [decide_eq_true_eq]
    rintro ⟨-, hin⟩
    have := List.mem_filter.1 (hcc ▸ hin)
    rw [decide_eq_true_eq] at this
    exact absurd this.2 (by omega)
  · rw [List.all_eq_true]
    intro r hr
    rw [decide_eq_true_eq]
    intro hne
    unfold drop_sparse_wages
    rw [List.mem_filter]
    refine ⟨hr, ?_⟩
    rw [decide_eq_true_eq]
    rintro ⟨hit, -⟩
    exact hne hit

/-- Rows for the claim C8 witness: country XXX has exactly 2 wage rows
and one CPI row, country YYY has exactly 3 wage rows. -/
def exC8rows : List UnifiedRecord := [
  ⟨"XXX", "X", 2000, 10, none, none, "monthly_wage", "ilostat"⟩,
  ⟨"XXX", "X", 2001, 11, none, none, "monthly_wage", "ilostat"⟩,
  ⟨"XXX", "X", 2000, 12, none, none, "cpi", "worldbank"⟩,
  ⟨"YYY", "Y", 2000, 20, none, none, "monthly_wage", "ilostat"⟩,
  ⟨"YYY", "Y", 2001, 21, none, none, "monthly_wage", "ilostat"⟩,
  ⟨"YYY", "Y", 2002, 22, none, none, "monthly_wage", "ilostat"⟩]

/-- Witness for claim C8: with exactly 2 wage rows, country XXX loses all
of them (its CPI row survives); with exactly 3, country YYY keeps all. -/
theorem c8_witness :
    wage_count exC8rows "XXX" = 2 ∧
    (drop_sparse_wages exC8rows).all
      (fun r => decide (¬(r.country_code = "XXX" ∧
        r.indicator_type = "monthly_wage"))) = true ∧
    wage_count exC8rows "YYY" = 3 ∧
    exC8rows.all (fun r => decide
      ((r.country_code = "YYY" ∧ r.indicator_type = "monthly_wage")
        → r ∈ drop_sparse_wages exC8rows)) = true ∧
    exC8rows.all (fun r => decide (r.indicator_type ≠ "monthly_wage"
        → r ∈ drop_sparse_wages exC8rows)) = true :=
  ⟨by decide,
   (c8_sparse_wage_pruning exC8rows "XXX").1 (by decide),
   by decide,
   (c8_sparse_wage_pruning exC8rows "YYY").2.1 (by decide),
   (c8_sparse_wage_pruning exC8rows "YYY").2.2⟩

theorem leftMergeFlat_eq_map {α β γ : Type} (bs : List β) (q : α → β → Bool)
    (f : α → Option β → γ) (l : List α)
    (h : ∀ r ∈ l, (bs.filter (q r)).length ≤ 1) :
    leftMergeFlat bs q f l = l.map (fun r => f r (bs.filter (q r)).head?) := by
  induction l with
  | nil => rfl
  | cons a t ih =>
    have ha := h a (List.mem_cons_self _ _)
    have ht : leftMergeFlat bs q f t
        = t.map (fun r => f r (bs.filter (q r)).head?) :=
      ih (fun r hr => h r (List.mem_cons_of_mem _ hr))
    unfold leftMergeFlat at ht ⊢
    rw [List.flatMap_cons, ht, List.map_cons]
    cases hms : bs.filter (q a) with
    | nil => simp [hms]
    | cons b t2 =>
      cases t2 with
      | nil => simp [hms]
      | cons b2 t3 =>
        rw [hms] at ha
        simp at ha

theorem length_filter_le_one_of_nodup {α κ : Type} [DecidableEq κ]
    {l : List α} {key : α → κ} (h : (l.map key).Nodup) (p : α → Bool) {k : κ}
    (hp : ∀ a ∈ l, p a = true → key a = k) :
    (l.filter p).length ≤ 1 := by
  have hnd : ((l.filter p).map key).Nodup :=
    ((l.filter_sublist).map key).nodup h
  cases hm : l.filter p with
  | nil => simp
  | cons x t =>
    cases t with
    | nil => simp
    | cons y t2 =>
      exfalso
      have hx : key x = k := hp x
        (List.mem_of_mem_filter (hm ▸ List.mem_cons_self _ _))
        (List.of_mem_filter (hm ▸ List.mem_cons_self _ _))
      have hy : key y = k := hp y
        (List.mem_of_mem_filter (hm ▸ List.mem_cons_of_mem _ (List.mem_cons_self _ _)))
        (List.of_mem_filter (hm ▸ List.mem_cons_of_mem _ (List.mem_cons_self _ _)))
      rw [hm] at hnd
      simp at hnd
      exact hnd.1.1 (by rw [hx, hy])

/-- The canonical key (country_code, year, indicator_type). -/
def keyTriple (r : UnifiedRecord) : String × Int × String :=
  (r.country_code, r.year, r.indicator_type)

/-- No two records share (country_code, year, indicator_type). -/
abbrev UniqTriples (rows : List UnifiedRecord) : Prop :=
  (rows.map keyTriple).Nodup

/-- The per-source key (country_code, year). -/
def keyPair (r : UnifiedRecord) : String × Int :=
  (r.country_code, r.year)

/-- No two records share (country_code, year). -/
abbrev UniqPairs (rows : List UnifiedRecord) : Prop :=
  (rows.map keyPair).Nodup

/-- The batch rebasing rule as the spec words it: locate the value of the
series of r at the reference year 2016; if present and non-zero,
round(value / referenceValue * 100, 2), otherwise null. -/
def rebaseSpecValue (df : List UnifiedRecord) (r : UnifiedRecord) : Option ℚ :=
  match (df.filter (fun b => b.year = 2016 ∧ b.country_code = r.country_code ∧
      b.indicator_type = r.indicator_type)).head? with
  | some b => if b.value ≠ 0 then some (pyRound 2 (r.value / b.value * 100))
              else none
  | none => none

theorem rebase_base_filter (df : List UnifiedRecord) (r : UnifiedRecord) :
    ((df.filter (fun s => s.year = 2016)).map
        (fun s => (s.country_code, s.indicator_type, s.value))).filter
      (fun b => b.1 = r.country_code ∧ b.2.1 = r.indicator_type)
    = (df.filter (fun b => b.year = 2016 ∧ b.country_code = r.country_code ∧
        b.indicator_type = r.indicator_type)).map
      (fun s => (s.country_code, s.indicator_type, s.value)) := by
  rw [List.filter_map, List.filter_filter]
  congr 1
  apply List.filter_congr
  intro a _
  simp only [Function.comp_apply, Bool.decide_and]
  rw [Bool.and_comm]

theorem rebase_eq_map_spec (df : List UnifiedRecord) (h : UniqTriples df) :
    rebase_to_2015 df
      = df.map (fun r => { r with value_rebased := rebaseSpecValue df r }) := by
  unfold rebase_to_2015
  have hlen : ∀ r ∈ df,
      (((df.filter (fun s => s.year = 2016)).map
        (fun s => (s.country_code, s.indicator_type, s.value))).filter
        (fun b => b.1 = r.country_code ∧ b.2.1 = r.indicator_type)).length ≤ 1 := by
    intro r hr
    rw [rebase_base_filter, List.length_map]
    refine length_filter_le_one_of_nodup h _
      (k := (r.country_code, 2016, r.indicator_type)) ?_
    intro a ha hpa
    rw [decide_eq_true_eq] at hpa
    obtain ⟨hy, hcc, hit⟩ := hpa
    simp [keyTriple, hy, hcc, hit]
  rw [leftMergeFlat_eq_map _ _ _ _ hlen]
  apply List.map_congr_left
  intro r hr
  rw [rebase_base_filter, List.head?_map]
  unfold rebaseSpecValue
  cases hh : (df.filter (fun b => b.year = 2016 ∧ b.country_code = r.country_code ∧
      b.indicator_type = r.indicator_type)).head? with
  | none => rfl
  | some b => rfl

/-- Claim C3: for every DataFrame with unique (country_code, year,
indicator_type) keys — the situation of the pipeline, whose series have
one row per year — batch rebasing maps every record to itself with
value_rebased set by the spec rule: round(value / referenceValue * 100, 2)
when the series has a non-zero value at the reference year, null
otherwise (null also when the reference value is zero or absent). -/
theorem c3_rebase_formula (df : List UnifiedRecord) (h : UniqTriples df) :
    rebase_to_2015 df
      = df.map (fun r => { r with value_rebased := rebaseSpecValue df r }) :=
  rebase_eq_map_spec df h

/-- Rows for the claim C3 witness: one (USA, cpi) series holding a
non-zero reference-year value, and one (FRA, cpi) series without any
reference-year row. -/
def exC3df : List UnifiedRecord := [
  ⟨"USA", "United States", 2016, 50, none, none, "cpi", "worldbank"⟩,
  ⟨"USA", "United States", 2000, 25, none, none, "cpi", "worldbank"⟩,
  ⟨"FRA", "France", 2000, 75, none, none, "cpi", "worldbank"⟩]

/-- Witness for claim C3 at exC3df. -/
theorem c3_witness :
    UniqTriples exC3df ∧
    rebase_to_2015 exC3df
      = exC3df.map (fun r => { r with value_rebased := rebaseSpecValue exC3df r }) :=
  ⟨by decide, c3_rebase_formula exC3df (by decide)⟩

theorem uniqTriples_of_uniqPairs {l : List UnifiedRecord} (h : UniqPairs l) :
    UniqTriples l := by
  have h2 : ((l.map keyTriple).map (fun t => (t.1, t.2.1))).Nodup := by
    rw [List.map_map]
    exact h
  exact h2.of_map _

theorem uniqTriples_append {l1 l2 : List UnifiedRecord}
    (h1 : UniqTriples l1) (h2 : UniqTriples l2)
    (hdisj : ∀ a ∈ l1, ∀ b ∈ l2, a.indicator_type ≠ b.indicator_type) :
    UniqTriples (l1 ++ l2) := by
  rw [UniqTriples, List.map_append]
  refine h1.append h2 ?_
  rw [List.disjoint_left]
  rintro t ht1 ht2
  obtain ⟨a, ha, rfl⟩ := List.mem_map.1 ht1
  obtain ⟨b, hb, hab⟩ := List.mem_map.1 ht2
  exact hdisj a ha b hb (by
    have := congrArg (fun t => t.2.2) hab
    simpa [keyTriple] using this.symm)

theorem uniqTriples_filter {l : List UnifiedRecord} (p : UnifiedRecord → Bool)
    (h : UniqTriples l) : UniqTriples (l.filter p) :=
  ((l.filter_sublist).map keyTriple).nodup h

theorem uniqTriples_map {l : List UnifiedRecord} {g : UnifiedRecord → UnifiedRecord}
    (hg : ∀ r, keyTriple (g r) = keyTriple r) (h : UniqTriples l) :
    UniqTriples (l.map g) := by
  show ((l.map g).map keyTriple).Nodup
  rw [List.map_map, Function.comp_def]
  rw [List.map_congr_left (fun a _ => hg a)]
  exact h

theorem uniqTriples_rebase {df : List UnifiedRecord} (h : UniqTriples df) :
    UniqTriples (rebase_to_2015 df) := by
  rw [rebase_eq_map_spec df h]
  exact uniqTriples_map (fun r => rfl) h

theorem groupAvg_ind {rows : List UnifiedRecord} {i : String}
    (h : ∀ r ∈ rows, r.indicator_type = i) :
    ∀ r ∈ groupAvg rows, r.indicator_type = i := by
  intro r hr
  unfold groupAvg at hr
  obtain ⟨k, hk, rfl⟩ := List.mem_map.1 hr
  rw [mem_distinctKeys] at hk
  obtain ⟨s, hs, rfl⟩ := List.mem_map.1 hk
  exact h s hs

theorem normalize_worldbank_ind {wb : List WBRaw} :
    ∀ r ∈ normalize_worldbank wb, r.indicator_type = "cpi" := by
  intro r hr
  rw [normalize_worldbank, List.mem_filterMap] at hr
  obtain ⟨a, -, hfa⟩ := hr
  rcases hct : a.cpi_total with - | v <;> rw [hct] at hfa
  · simp at hfa
  · by_cases hcc : a.country_code = "" <;> simp [hcc] at hfa
    rw [← hfa]

theorem normalize_faostat_ind {fao : List FAORaw} :
    ∀ r ∈ normalize_faostat fao, r.indicator_type = "food_cpi" := by
  apply groupAvg_ind
  intro r hr
  rw [List.mem_filterMap] at hr
  obtain ⟨a, -, hfa⟩ := hr
  rcases hct : a.cpi_food with - | v <;> rw [hct] at hfa
  · simp at hfa
  · simp only [] at hfa
    rcases hl : M49_TO_ISO3.lookup (stripQuotes (pyStrip a.country_code))
      with - | iso3 <;> rw [hl] at hfa
    · simp at hfa
    · by_cases hcc : iso3 = "" <;> simp [hcc] at hfa
      rw [← hfa]

theorem normalize_ilostat_ind {ilo : List ILORaw} :
    ∀ r ∈ normalize_ilostat ilo, r.indicator_type = "monthly_wage" := by
  apply groupAvg_ind
  intro r hr
  rw [List.mem_filterMap] at hr
  obtain ⟨a, -, hfa⟩ := hr
  rcases hct : a.gross_wage with - | v <;> rw [hct] at hfa
  · simp at hfa
  · by_cases hcc : a.country_code = "" <;> simp [hcc] at hfa
    rw [← hfa]

theorem normalize_bis_ind {bis : List BISRaw} :
    ∀ r ∈ normalize_bis bis, r.indicator_type = "housing_price_index" := by
  intro r hr
  rw [normalize_bis, List.mem_filterMap] at hr
  obtain ⟨a, -, hfa⟩ := hr
  rcases hct : a.housing_price_index with - | v <;> rw [hct] at hfa
  · simp at hfa
  · by_cases hcc : a.country_code = "" <;> simp [hcc] at hfa
    rw [← hfa]

theorem uniqTriples_redenom {rows : List UnifiedRecord} (h : UniqTriples rows) :
    UniqTriples (normalize_redenomination_values rows) :=
  uniqTriples_map (fun _ => rfl) h

theorem uniqTriples_usd {rows : List UnifiedRecord} {fx : List FXRaw}
    (h : UniqTriples rows) : UniqTriples (compute_value_usd rows fx) :=
  uniqTriples_map (fun _ => rfl) h

theorem uniqTriples_drop_sparse {rows : List UnifiedRecord}
    (h : UniqTriples rows) : UniqTriples (drop_sparse_wages rows) :=
  uniqTriples_filter _ h

/-- Claim C2 (amended): whenever each normalized source carries at most
one row per (country_code, year) — which the within-source groupBy
deduplication is meant to establish — the full pipeline output has unique
(country_code, year, indicator_type) triples: each source contributes one
fixed indicator, distinct across the four sources, and every later stage
(3-letter filter, name fill, redenomination correction, USD computation,
sparse-wage pruning, batch rebasing) preserves key uniqueness. -/
theorem c2_unique_triples (wb : List WBRaw) (fao : List FAORaw)
    (ilo : List ILORaw) (bis : List BISRaw) (fx : List FXRaw)
    (h1 : UniqPairs (normalize_worldbank wb))
    (h2 : UniqPairs (normalize_faostat fao))
    (h3 : UniqPairs (normalize_ilostat ilo))
    (h4 : UniqPairs (normalize_bis bis)) :
    UniqTriples (etlPipeline wb fao ilo bis fx) := by
  have hu12 : UniqTriples (normalize_worldbank wb ++ normalize_faostat fao) :=
    uniqTriples_append (uniqTriples_of_uniqPairs h1) (uniqTriples_of_uniqPairs h2)
      (fun a ha b hb => by
        rw [normalize_worldbank_ind _ ha, normalize_faostat_ind _ hb]
        simp)
  have hu123 : UniqTriples ((normalize_worldbank wb ++ normalize_faostat fao)
      ++ normalize_ilostat ilo) :=
    uniqTriples_append hu12 (uniqTriples_of_uniqPairs h3) (fun a ha b hb => by
      rw [normalize_ilostat_ind _ hb]
      rcases List.mem_append.1 ha with h | h
      · rw [normalize_worldbank_ind _ h]
        simp
      · rw [normalize_faostat_ind _ h]
        simp)
  have hunion : UniqTriples (((normalize_worldbank wb ++ normalize_faostat fao)
      ++ normalize_ilostat ilo) ++ normalize_bis bis) :=
    uniqTriples_append hu123 (uniqTriples_of_uniqPairs h4) (fun a ha b hb => by
      rw [normalize_bis_ind _ hb]
      rcases List.mem_append.1 ha with h | h
      · rcases List.mem_append.1 h with h | h
        · rw [normalize_worldbank_ind _ h]
          simp
        · rw [normalize_faostat_ind _ h]
          simp
      · rw [normalize_ilostat_ind _ h]
        simp)
  simp only [etlPipeline]
  exact uniqTriples_rebase (uniqTriples_drop_sparse (uniqTriples_usd
    (uniqTriples_redenom (uniqTriples_map (fun r => rfl)
      (uniqTriples_filter _ hunion)))))

/-- Two raw WorldBank records sharing (country_code, year): the pipeline
does not deduplicate the WorldBank source, so both survive to the output. -/
def exC2dup : List WBRaw := [
  ⟨"USA", some "United States", 2000, some 5⟩,
  ⟨"USA", some "United States", 2000, some 6⟩]

/-- Claim C2 counterexample: for this raw input collection the full
pipeline emits two records with the key (USA, 2000, cpi), so the
uniqueness invariant fails for arbitrary raw inputs. -/
theorem c2_counterexample :
    ¬ UniqTriples (etlPipeline exC2dup [] [] [] []) := by
  decide

/-- One well-behaved WorldBank record for the claim C2 witness. -/
def exC2ok : List WBRaw := [⟨"USA", some "United States", 2000, some 5⟩]

/-- Witness for claim C2: the hypotheses hold for this input and the
pipeline output is key-unique. -/
theorem c2_witness :
    UniqPairs (normalize_worldbank exC2ok) ∧
    UniqPairs (normalize_faostat []) ∧
    UniqPairs (normalize_ilostat []) ∧
    UniqPairs (normalize_bis []) ∧
    UniqTriples (etlPipeline exC2ok [] [] [] []) :=
  ⟨by decide, by decide, by decide, by decide,
   c2_unique_triples exC2ok [] [] [] [] (by decide) (by decide)
     (by decide) (by decide)⟩

/-!
Dashboard dynamic rebasing, from dashboard/app.py. A row of the pandas
frame loaded by load_all_data (records with a non-null value); the two
view modes are modelled on the frame already restricted to the selected
country or indicator set and to the year-slider range, which both modes
apply before everything else.
-/

structure DashRow where
  country_code : String
  country_name : String
  year : Int
  value : ℚ
  value_usd : Option ℚ
  indicator_type : String
deriving DecidableEq

/-- country_df["value_usd"].notna().any(). -/
def hasUsd (rows : List DashRow) : Bool :=
  rows.any (fun r => r.value_usd.isSome)

/-- df[df["value_usd"].notna()]. -/
def usdFilter (rows : List DashRow) : List DashRow :=
  rows.filter (fun r => r.value_usd.isSome)

/-- The selected value column: value_usd when the USD toggle is in
effect, else value. The default 0 of getD is never reached: the USD
branch only runs on rows that passed usdFilter. -/
def dval (eff : Bool) (r : DashRow) : ℚ :=
  if eff then r.value_usd.getD 0 else r.value

/-- The year-range slider filter applied by both modes before every other
computation. -/
def yearRangeFilter (lo hi : Int) (rows : List DashRow) : List DashRow :=
  rows.filter (fun r => lo ≤ r.year ∧ r.year ≤ hi)

/-- The distinct indicators of the frame, as groupby("indicator_type"). -/
def indicatorsOf (rows : List DashRow) : List String :=
  distinctKeys (rows.map (fun r => r.indicator_type))

/-- groupby("indicator_type")["year"].min() for one indicator. -/
def minYearOfInd (rows : List DashRow) (i : String) : Option Int :=
  ((rows.filter (fun r => r.indicator_type = i)).map (fun r => r.year)).min?

/-- base_year of the country view (app.py line 144):
int(country_df.groupby("indicator_type")["year"].min().max()); none
models the int(NaN) failure on an empty frame. -/
def baseYearA (rows : List DashRow) : Option Int :=
  ((indicatorsOf rows).filterMap (fun i => minYearOfInd rows i)).max?

/-- Mode A, render_country_view lines 134-151: the USD toggle filter is
applied first, the base year is computed on the filtered frame, and every
row is merged against the base values of its indicator at the base year;
a missing base gives a null index (a NaN in pandas). -/
def modeACore (rows0 : List DashRow) (use_usd : Bool) :
    Option (Int × List (DashRow × Option ℚ)) :=
  let eff := use_usd && hasUsd rows0
  let rows := if eff then usdFilter rows0 else rows0
  match baseYearA rows with
  | none => none
  | some b =>
    let base_values := (rows.filter (fun r => r.year = b)).map
      (fun r => (r.indicator_type, dval eff r))
    some (b, leftMergeFlat base_values
      (fun r m => m.1 = r.indicator_type)
      (fun r o => (r, o.map (fun m => pyRound 2 (dval eff r / m.2 * 100))))
      rows)

/-- The distinct countries of the frame (nunique counts its length). -/
def countriesOf (rows : List DashRow) : List String :=
  distinctKeys (rows.map (fun r => r.country_code))

/-- The years whose distinct-country count equals the whole frame's
distinct-country count (years_with_all, app.py lines 221-225). -/
def yearsWithAll (rows : List DashRow) : List Int :=
  (distinctKeys (rows.map (fun r => r.year))).filter
    (fun y => (countriesOf (rows.filter (fun r => r.year = y))).length
      = (countriesOf rows).length)

/-- common_base_year (app.py line 226); none models the int(NaN) failure
when no year has every present country. -/
def commonBaseYear (rows : List DashRow) : Option Int :=
  (yearsWithAll rows).min?

/-- Mode B, render_cross_country lines 206-248: the empty check and the
common-base-year computation happen before the USD toggle filter; only
the rebasing merge runs on the USD-filtered frame. -/
def modeBCore (rows0 : List DashRow) (use_usd : Bool) :
    Option (Int × List (DashRow × Option ℚ)) :=
  if rows0.isEmpty then none
  else
    match commonBaseYear rows0 with
    | none => none
    | some b =>
      let eff := use_usd && hasUsd rows0
      let rows := if eff then usdFilter rows0 else rows0
      let base_values := (rows.filter (fun r => r.year = b)).map
        (fun r => (r.country_code, dval eff r))
      some (b, leftMergeFlat base_values
        (fun r m => m.1 = r.country_code)
        (fun r o => (r, o.map (fun m => pyRound 2 (dval eff r / m.2 * 100))))
        rows)

/-- The emitted (row, index_value) sequence of a mode result. -/
def outOf (o : Option (Int × List (DashRow × Option ℚ))) :
    List (DashRow × Option ℚ) :=
  ((o.map (fun p => p.2)).getD [])

/-- The number of distinct countries having an observation at year y. -/
def countriesAtYear (rows : List DashRow) (y : Int) : ℕ :=
  (countriesOf (rows.filter (fun r => r.year = y))).length

/-- common_base_year exactly as claim C4 words it: the minimum year whose
distinct-country count equals the total number of SELECTED countries. -/
def claimedCommonBaseYear (selected : List String) (rows : List DashRow) :
    Option Int :=
  ((distinctKeys (rows.map (fun r => r.year))).filter
    (fun y => countriesAtYear rows y = selected.length)).min?

instance : Std.Antisymm (fun a b : Int => a ≤ b) :=
  ⟨@fun _ _ h1 h2 => le_antisymm h1 h2⟩

theorem int_min?_eq_some_iff {l : List Int} {a : Int} :
    l.min? = some a ↔ a ∈ l ∧ ∀ b ∈ l, a ≤ b :=
  List.min?_eq_some_iff (fun _ => le_refl _) (fun _ _ => min_choice _ _)
    (fun _ _ _ => le_min_iff)

theorem int_max?_eq_some_iff {l : List Int} {a : Int} :
    l.max? = some a ↔ a ∈ l ∧ ∀ b ∈ l, b ≤ a :=
  List.max?_eq_some_iff (fun _ => le_refl _) (fun _ _ => max_choice _ _)
    (fun _ _ _ => max_le_iff)

theorem subset_mem_of_length_eq {l1 l2 : List String} (hsub : l1 ⊆ l2)
    (h1 : l1.Nodup) (h2 : l2.Nodup) (hlen : l1.length = l2.length) :
    ∀ x ∈ l2, x ∈ l1 := by
  intro x hx
  have hfs : l1.toFinset ⊆ l2.toFinset := by
    intro y hy
    rw [List.mem_toFinset] at hy ⊢
    exact hsub hy
  have hcard : l2.toFinset.card ≤ l1.toFinset.card := by
    rw [List.toFinset_card_of_nodup h1, List.toFinset_card_of_nodup h2, hlen]
  have heq := Finset.eq_of_subset_of_card_le hfs hcard
  rw [← List.mem_toFinset, ← heq, List.mem_toFinset] at hx
  exact hx

/-- Every country of the frame has an observation at any year of
years_with_all. -/
theorem all_countries_at_year {rows : List DashRow} {b : Int}
    (hb : b ∈ yearsWithAll rows) :
    ∀ r ∈ rows, ∃ s ∈ rows, s.country_code = r.country_code ∧ s.year = b := by
  intro r hr
  have hcond := List.of_mem_filter hb
  rw [decide_eq_true_eq] at hcond
  have hsub : countriesOf (rows.filter (fun s => s.year = b)) ⊆ countriesOf rows := by
    intro c hc
    rw [countriesOf, mem_distinctKeys, List.mem_map] at hc ⊢
    obtain ⟨s, hs, rfl⟩ := hc
    exact ⟨s, List.mem_of_mem_filter hs, rfl⟩
  have hmem : r.country_code ∈ countriesOf rows := by
    rw [countriesOf, mem_distinctKeys, List.mem_map]
    exact ⟨r, hr, rfl⟩
  have hback : r.country_code ∈ countriesOf (rows.filter (fun s => s.year = b)) :=
    subset_mem_of_length_eq hsub (distinctKeys_nodup _) (distinctKeys_nodup _)
      hcond _ hmem
  rw [countriesOf, mem_distinctKeys, List.mem_map] at hback
  obtain ⟨s, hs, hcc⟩ := hback
  refine ⟨s, List.mem_of_mem_filter hs, hcc, ?_⟩
  have := List.of_mem_filter hs
  rwa [decide_eq_true_eq] at this

theorem modeB_base_filter (rows : List DashRow) (b : Int) (eff : Bool)
    (r : DashRow) :
    ((rows.filter (fun s => s.year = b)).map
        (fun s => (s.country_code, dval eff s))).filter
      (fun m => m.1 = r.country_code)
    = (rows.filter (fun s => s.country_code = r.country_code ∧ s.year = b)).map
      (fun s => (s.country_code, dval eff s)) := by
  rw [List.filter_map, List.filter_filter]
  congr 1
  apply List.filter_congr
  intro a _
  simp only [Function.comp_apply, Bool.decide_and]

/-- Claim C4 (amended): in Mode B the common base year is the minimum
year at which every country PRESENT IN THE FILTERED DATA (not every
selected country: selections without data for the indicator do not
count) has an observation, provided such a year exists at all; with at
most one observation per (country, year), every country is then rebased
through its value at that shared year:
index = round(value / value_at(country, common_base_year) * 100, 2). -/
theorem c4_common_base_year (rows : List DashRow) (b : Int)
    (hb : commonBaseYear rows = some b)
    (huniq : (rows.map (fun r => (r.country_code, r.year))).Nodup) :
    b ∈ yearsWithAll rows ∧
    ((yearsWithAll rows).all (fun y => b ≤ y)) = true ∧
    modeBCore rows false = some (b, rows.map (fun r =>
      (r, ((rows.filter (fun s => s.country_code = r.country_code ∧
            s.year = b)).head?).map
          (fun s => pyRound 2 (r.value / s.value * 100))))) ∧
    (rows.all (fun r =>
      ((rows.filter (fun s => s.country_code = r.country_code ∧
          s.year = b)).head?).isSome)) = true := by
  obtain ⟨hbmem, hble⟩ := int_min?_eq_some_iff.1 hb
  have hne : rows ≠ [] := by
    intro h
    subst h
    simp [yearsWithAll, distinctKeys] at hbmem
  have hempty : rows.isEmpty = false := by
    cases rows with
    | nil => exact absurd rfl hne
    | cons _ _ => rfl
  have hlen : ∀ r ∈ rows,
      (((rows.filter (fun s => s.year = b)).map
        (fun s => (s.country_code, dval false s))).filter
        (fun m => m.1 = r.country_code)).length ≤ 1 := by
    intro r _
    rw [modeB_base_filter, List.length_map]
    refine length_filter_le_one_of_nodup huniq _
      (k := (r.country_code, b)) ?_
    intro a _ hpa
    rw [decide_eq_true_eq] at hpa
    simp [hpa.1, hpa.2]
  have hpres := all_countries_at_year hbmem
  refine ⟨hbmem, ?_, ?_, ?_⟩
  · rw [List.all_eq_true]
    intro y hy
    rw [decide_eq_true_eq]
    exact hble y hy
  · simp only [modeBCore, hempty, Bool.false_eq_true, if_false, hb,
      Bool.false_and]
    rw [leftMergeFlat_eq_map _ _ _ _ hlen]
    rw [Option.some.injEq, Prod.mk.injEq]
    refine ⟨rfl, ?_⟩
    apply List.map_congr_left
    intro r _
    rw [modeB_base_filter, List.head?_map, Option.map_map]
    rfl
  · rw [List.all_eq_true]
    intro r hr
    rw [List.head?_isSome]
    obtain ⟨s, hs, hcc, hyb⟩ := hpres r hr
    intro hnil
    have hmem : s ∈ rows.filter (fun s => s.country_code = r.country_code ∧
        s.year = b) := List.mem_filter.2 ⟨hs, by simp [hcc, hyb]⟩
    rw [hnil] at hmem
    simp at hmem

/-- Rows for the claim C4 counterexample: countries AAA and BBB selected,
but the filtered frame only holds AAA (BBB has no data for the
indicator). -/
def exC4ce : List DashRow := [⟨"AAA", "A", 2000, 5, none, "cpi"⟩]

/-- Claim C4 counterexample: the code takes the earliest year covering
every country present in the data (2000, covering only AAA), while the
claimed formula requires the distinct-country count to reach the number
of SELECTED countries (2), which never happens here — the claimed
minimum does not exist, and the year the code picks violates the claimed
count equation. -/
theorem c4_counterexample :
    commonBaseYear exC4ce = some 2000 ∧
    claimedCommonBaseYear ["AAA", "BBB"] exC4ce = none ∧
    countriesAtYear exC4ce 2000 ≠ (["AAA", "BBB"] : List String).length := by
  refine ⟨by decide, by decide, by decide⟩

/-- Rows for the claim C4 witness: three countries whose first available
years are 2000, 2005 and 2010, all reporting at 2010. -/
def exC4w : List DashRow := [
  ⟨"AAA", "A", 2000, 10, none, "cpi"⟩,
  ⟨"AAA", "A", 2010, 20, none, "cpi"⟩,
  ⟨"BBB", "B", 2005, 30, none, "cpi"⟩,
  ⟨"BBB", "B", 2010, 40, none, "cpi"⟩,
  ⟨"CCC", "C", 2010, 50, none, "cpi"⟩]

/-- Witness for claim C4: first-available years {2000, 2005, 2010} give
common_base_year 2010, and every country is rebased through its value at
2010. -/
theorem c4_witness :
    commonBaseYear exC4w = some 2010 ∧
    (exC4w.map (fun r => (r.country_code, r.year))).Nodup ∧
    (2010:Int) ∈ yearsWithAll exC4w ∧
    ((yearsWithAll exC4w).all (fun y => 2010 ≤ y)) = true ∧
    modeBCore exC4w false = some (2010, exC4w.map (fun r =>
      (r, ((exC4w.filter (fun s => s.country_code = r.country_code ∧
            s.year = 2010)).head?).map
          (fun s => pyRound 2 (r.value / s.value * 100))))) ∧
    (exC4w.all (fun r =>
      ((exC4w.filter (fun s => s.country_code = r.country_code ∧
          s.year = 2010)).head?).isSome)) = true := by
  have h := c4_common_base_year exC4w 2010 (by decide) (by decide)
  exact ⟨by decide, by decide, h.1, h.2.1, h.2.2.1, h.2.2.2⟩

theorem modeA_base_filter (rows : List DashRow) (b : Int) (eff : Bool)
    (r : DashRow) :
    ((rows.filter (fun s => s.year = b)).map
        (fun s => (s.indicator_type, dval eff s))).filter
      (fun m => m.1 = r.indicator_type)
    = (rows.filter (fun s => s.indicator_type = r.indicator_type ∧
        s.year = b)).map (fun s => (s.indicator_type, dval eff s)) := by
  rw [List.filter_map, List.filter_filter]
  congr 1
  apply List.filter_congr
  intro a _
  simp only [Function.comp_apply, Bool.decide_and]

/-- Claim C5 (amended): in Mode A the base year is the maximum over the
displayed indicators of the minimum year available for that indicator;
with at most one observation per (indicator, year), every row is rebased
through the value of its indicator at the base year when one exists, the
index staying null when the indicator has no observation at the base
year — which series with gaps, or ending before the base year, can do,
contrary to the guarantee the claim asserts; when every indicator does
have an observation at the base year, every index of the output is
defined. -/
theorem c5_mode_a_base_year (rows : List DashRow) (b : Int)
    (hb : baseYearA rows = some b)
    (huniq : (rows.map (fun r => (r.indicator_type, r.year))).Nodup) :
    ((indicatorsOf rows).all
      (fun i => (minYearOfInd rows i).any (fun m => decide (m ≤ b)))) = true ∧
    ((indicatorsOf rows).any (fun i => minYearOfInd rows i == some b)) = true ∧
    modeACore rows false = some (b, rows.map (fun r =>
      (r, ((rows.filter (fun s => s.indicator_type = r.indicator_type ∧
            s.year = b)).head?).map
          (fun s => pyRound 2 (r.value / s.value * 100))))) ∧
    (((indicatorsOf rows).all
        (fun i => rows.any (fun s => s.indicator_type = i ∧ s.year = b))) = true →
      (rows.all (fun r =>
        ((rows.filter (fun s => s.indicator_type = r.indicator_type ∧
            s.year = b)).head?).isSome)) = true ∧
      ((outOf (modeACore rows false)).all (fun p => p.2.isSome)) = true) := by
  obtain ⟨hbmem, hble⟩ := int_max?_eq_some_iff.1 hb
  have hlen : ∀ r ∈ rows,
      (((rows.filter (fun s => s.year = b)).map
        (fun s => (s.indicator_type, dval false s))).filter
        (fun m => m.1 = r.indicator_type)).length ≤ 1 := by
    intro r _
    rw [modeA_base_filter, List.length_map]
    refine length_filter_le_one_of_nodup huniq _
      (k := (r.indicator_type, b)) ?_
    intro a _ hpa
    rw [decide_eq_true_eq] at hpa
    simp [hpa.1, hpa.2]
  have hmodeA : modeACore rows false = some (b, rows.map (fun r =>
      (r, ((rows.filter (fun s => s.indicator_type = r.indicator_type ∧
            s.year = b)).head?).map
          (fun s => pyRound 2 (r.value / s.value * 100))))) := by
    simp only [modeACore, Bool.false_and, if_false, hb, Bool.false_eq_true]
    rw [leftMergeFlat_eq_map _ _ _ _ hlen]
    rw [Option.some.injEq, Prod.mk.injEq]
    refine ⟨rfl, ?_⟩
    apply List.map_congr_left
    intro r _
    rw [modeA_base_filter, List.head?_map, Option.map_map]
    rfl
  refine ⟨?_, ?_, hmodeA, ?_⟩
  · rw [List.all_eq_true]
    intro i hi
    rw [indicatorsOf, mem_distinctKeys, List.mem_map] at hi
    obtain ⟨s, hs, rfl⟩ := hi
    cases hm : minYearOfInd rows s.indicator_type with
    | none =>
      exfalso
      rw [minYearOfInd, List.min?_eq_none_iff, List.map_eq_nil_iff,
        List.filter_eq_nil_iff] at hm
      exact hm s hs (by simp)
    | some m =>
      have : m ∈ (indicatorsOf rows).filterMap (fun i => minYearOfInd rows i) := by
        rw [List.mem_filterMap]
        exact ⟨s.indicator_type, by
          rw [indicatorsOf, mem_distinctKeys, List.mem_map]
          exact ⟨s, hs, rfl⟩, hm⟩
      simpa using hble m this
  · rw [List.any_eq_true]
    obtain ⟨i, hi, hmi⟩ := List.mem_filterMap.1 hbmem
    exact ⟨i, hi, by simp [hmi]⟩
  · intro hobs
    rw [List.all_eq_true] at hobs
    have hsome : ∀ r ∈ rows,
        ((rows.filter (fun s => s.indicator_type = r.indicator_type ∧
          s.year = b)).head?).isSome = true := by
      intro r hr
      rw [List.head?_isSome]
      have hi : r.indicator_type ∈ indicatorsOf rows := by
        rw [indicatorsOf, mem_distinctKeys, List.mem_map]
        exact ⟨r, hr, rfl⟩
      have := hobs _ hi
      rw [List.any_eq_true] at this
      obtain ⟨s, hs, hcond⟩ := this
      rw [decide_eq_true_eq] at hcond
      intro hnil
      have hmem : s ∈ rows.filter (fun s => s.indicator_type = r.indicator_type ∧
          s.year = b) := List.mem_filter.2 ⟨hs, by simp [hcond.1, hcond.2]⟩
      rw [hnil] at hmem
      simp at hmem
    refine ⟨by
      rw [List.all_eq_true]
      exact hsome, ?_⟩
    rw [List.all_eq_true]
    intro p hp
    rw [hmodeA] at hp
    simp only [outOf, Option.map_some', Option.getD_some] at hp
    obtain ⟨r, hr, rfl⟩ := List.mem_map.1 hp
    simp only [Option.isSome_map']
    exact hsome r hr

/-- Rows for the claim C5 counterexample: CPI available at 1990 and 2010
only, wage at 2005; the base year is 2005, where CPI has no value. -/
def exC5ce : List DashRow := [
  ⟨"FRA", "France", 1990, 50, none, "cpi"⟩,
  ⟨"FRA", "France", 2010, 80, none, "cpi"⟩,
  ⟨"FRA", "France", 2005, 100, none, "monthly_wage"⟩]

/-- Claim C5 counterexample: base_year = 2005 is correct, but the
displayed CPI indicator has no observation at 2005 (its series has a
gap), so its rows come out of Mode A with a null index — refuting that
every indicator has a defined value at the base year and a defined index
everywhere. -/
theorem c5_counterexample :
    baseYearA exC5ce = some 2005 ∧
    (exC5ce.all (fun s => !(s.indicator_type == "cpi" && s.year == 2005)))
      = true ∧
    (∃ p ∈ outOf (modeACore exC5ce false), p.2 = none) := by
  refine ⟨by decide, by decide, by decide⟩

/-- Rows for the claim C5 witness: CPI first available 1990, wage first
available 2005, and CPI still reporting at 2005. -/
def exC5w : List DashRow := [
  ⟨"FRA", "France", 1990, 50, none, "cpi"⟩,
  ⟨"FRA", "France", 2005, 80, none, "cpi"⟩,
  ⟨"FRA", "France", 2005, 100, none, "monthly_wage"⟩]

/-- Witness for claim C5: first-available years {CPI: 1990, wage: 2005}
give base_year 2005, and with every indicator observed at 2005 every
index of the output is defined. -/
theorem c5_witness :
    baseYearA exC5w = some 2005 ∧
    (exC5w.map (fun r => (r.indicator_type, r.year))).Nodup ∧
    ((indicatorsOf exC5w).all
      (fun i => (minYearOfInd exC5w i).any (fun m => decide (m ≤ 2005)))) = true ∧
    ((indicatorsOf exC5w).any (fun i => minYearOfInd exC5w i == some 2005)) = true ∧
    modeACore exC5w false = some (2005, exC5w.map (fun r =>
      (r, ((exC5w.filter (fun s => s.indicator_type = r.indicator_type ∧
            s.year = 2005)).head?).map
          (fun s => pyRound 2 (r.value / s.value * 100))))) ∧
    ((outOf (modeACore exC5w false)).all (fun p => p.2.isSome)) = true := by
  have h := c5_mode_a_base_year exC5w 2005 (by decide) (by decide)
  exact ⟨by decide, by decide, h.1, h.2.1, h.2.2.1,
    (h.2.2.2 (by decide)).2⟩

theorem mem_leftMergeFlat {α β γ : Type} {bs : List β} {q : α → β → Bool}
    {f : α → Option β → γ} {l : List α} {p : γ}
    (hp : p ∈ leftMergeFlat bs q f l) : ∃ r ∈ l, ∃ o, p = f r o := by
  unfold leftMergeFlat at hp
  rw [List.mem_flatMap] at hp
  obtain ⟨r, hr, hmem⟩ := hp
  by_cases hms : (bs.filter (q r)).isEmpty
  · rw [if_pos hms] at hmem
    simp at hmem
    exact ⟨r, hr, none, hmem⟩
  · rw [if_neg hms] at hmem
    obtain ⟨b, -, rfl⟩ := List.mem_map.1 hmem
    exact ⟨r, hr, some b, rfl⟩

theorem hasUsd_usdFilter {rows : List DashRow} (h : hasUsd rows = true) :
    hasUsd (usdFilter rows) = true := by
  rw [hasUsd, List.any_eq_true] at h ⊢
  obtain ⟨r, hr, hsome⟩ := h
  exact ⟨r, List.mem_filter.2 ⟨hr, hsome⟩, hsome⟩

theorem usdFilter_idem (rows : List DashRow) :
    usdFilter (usdFilter rows) = usdFilter rows := by
  rw [usdFilter, usdFilter, List.filter_filter]
  apply List.filter_congr
  intro a _
  rw [Bool.and_self]

/-- Claim C6 (amended): in Mode A the USD toggle restricts the rows to
those with a non-null value_usd BEFORE every computation, including the
base-year determination, and substitutes value_usd for value throughout;
in Mode B the restriction happens only AFTER the common-base-year
determination (the base year is the same whatever the toggle) but before
the rebasing merge; in both modes the excluded rows never reach the
output, as zero, null, or anything else. -/
theorem c6_usd_toggle :
    (∀ rows : List DashRow, hasUsd rows = true →
      modeACore rows true = modeACore (usdFilter rows) true) ∧
    (∀ (rows : List DashRow) (u1 u2 : Bool),
      (modeBCore rows u1).map Prod.fst = (modeBCore rows u2).map Prod.fst) ∧
    (∀ rows : List DashRow, hasUsd rows = true →
      ((outOf (modeACore rows true)).all
        (fun p => p.1.value_usd.isSome)) = true) ∧
    (∀ rows : List DashRow, hasUsd rows = true →
      ((outOf (modeBCore rows true)).all
        (fun p => p.1.value_usd.isSome)) = true) := by
  refine ⟨?_, ?_, ?_, ?_⟩
  · intro rows h
    have h2 := hasUsd_usdFilter h
    simp only [modeACore, Bool.true_and, h, h2, if_true, usdFilter_idem]
  · intro rows u1 u2
    by_cases hE : rows.isEmpty
    · simp [modeBCore, hE]
    · simp only [modeBCore, hE, Bool.false_eq_true, if_false]
      cases hcb : commonBaseYear rows <;> simp
  · intro rows h
    rw [List.all_eq_true]
    intro p hp
    simp only [modeACore, Bool.true_and, h, if_true] at hp
    cases hby : baseYearA (usdFilter rows) <;> rw [hby] at hp
    · simp [outOf] at hp
    · simp only [outOf, Option.map_some', Option.getD_some] at hp
      obtain ⟨r, hr, o, rfl⟩ := mem_leftMergeFlat hp
      simpa using List.of_mem_filter hr
  · intro rows h
    rw [List.all_eq_true]
    intro p hp
    by_cases hE : rows.isEmpty
    · simp [modeBCore, hE, outOf] at hp
    · simp only [modeBCore, hE, if_false, Bool.false_eq_true] at hp
      cases hcb : commonBaseYear rows <;> rw [hcb] at hp
      · simp [outOf] at hp
      · simp only [Bool.true_and, h, if_true, outOf, Option.map_some',
          Option.getD_some] at hp
        obtain ⟨r, hr, o, rfl⟩ := mem_leftMergeFlat hp
        simpa using List.of_mem_filter hr

/-- Rows for the claim C6 counterexample: country AAA has no exchange
rate at 2000 (null value_usd) but has one at 2001; country BBB has rates
at both years. -/
def exC6ce : List DashRow := [
  ⟨"AAA", "A", 2000, 5, none, "cpi"⟩,
  ⟨"AAA", "A", 2001, 6, some 10, "cpi"⟩,
  ⟨"BBB", "B", 2000, 7, some 10, "cpi"⟩,
  ⟨"BBB", "B", 2001, 8, some 10, "cpi"⟩]

/-- Claim C6 counterexample: with the USD toggle on, Mode B still
determines the base year on the unrestricted rows and picks 2000, while
the computation the claim describes — restricting to rows with a
non-null value_usd before every computation of the mode — would pick
2001. -/
theorem c6_counterexample :
    (modeBCore exC6ce true).map Prod.fst = some 2000 ∧
    commonBaseYear (usdFilter exC6ce) = some 2001 ∧
    ((2000 : Int) ≠ 2001) := by
  refine ⟨by decide, by decide, by decide⟩

/-- Rows for the claim C6 witness. -/
def exC6w : List DashRow := [⟨"AAA", "A", 2000, 5, some 2, "cpi"⟩]

/-- Witness for claim C6 at a one-row frame with a USD value. -/
theorem c6_witness :
    modeACore exC6w true = modeACore (usdFilter exC6w) true ∧
    (modeBCore exC6w true).map Prod.fst
      = (modeBCore exC6w false).map Prod.fst ∧
    ((outOf (modeACore exC6w true)).all
      (fun p => p.1.value_usd.isSome)) = true ∧
    ((outOf (modeBCore exC6w true)).all
      (fun p => p.1.value_usd.isSome)) = true :=
  ⟨c6_usd_toggle.1 exC6w (by decide),
   c6_usd_toggle.2.1 exC6w true false,
   c6_usd_toggle.2.2.1 exC6w (by decide),
   c6_usd_toggle.2.2.2 exC6w (by decide)⟩
